import Mathlib

/-!
Verification of the cost-analysis reporting pipeline of
`ec2_cost_analysis_v2.py` (repository FusaroPaolo/RelevamientoEC2).

Modelling conventions:
* A pandas DataFrame of records is modelled as a `List` of structure values.
* Dates are ISO `YYYY-MM-DD` strings; `pd.to_datetime` followed by a
  chronological sort is modelled by sorting the strings lexicographically
  (identical order on ISO dates).
* Monetary amounts are modelled as exact rationals `ℚ` (the Python code uses
  `float`; the claims are stated up to floating-point tolerance, which the
  exact model realises with equality).
* A Python `KeyError` on a missing JSON field is modelled by `Except.error`:
  a JSON field that may be absent is an `Option` in the entry structures.
  `pd.DataFrame([])` (built from an empty record list) has no columns, so the
  subsequent `df["Date"]` lookup raises `KeyError`; this is modelled by the
  `isEmpty` check in the normalizers.
* `sort_values` / the sorted groupby key order are modelled with
  `List.insertionSort` (only order and multiset content matter here).
-/

/-- A normalized row of the daily total-cost table (columns `Date`, `Cost`). -/
structure CostPoint where
  date : String
  cost : ℚ
deriving Repr, DecidableEq

/-- A normalized row of the per-instance-type cost table
(columns `Date`, `InstanceType`, `Cost`). -/
structure TypeRow where
  date : String
  instanceType : String
  cost : ℚ
deriving Repr, DecidableEq

/-- One entry of the total-series JSON array. `start` models
`e["TimePeriod"]["Start"]`, `amount` models
`e["Total"]["UnblendedCost"]["Amount"]`; `none` models an absent field. -/
structure TotalEntry where
  start : Option String
  amount : Option ℚ
deriving Repr, DecidableEq

/-- One group of a grouped-series entry. `keys` models `g.get("Keys")`
(`none` when the field is absent), `amount` models
`g["Metrics"]["UnblendedCost"]["Amount"]`. -/
structure GroupEntry where
  keys : Option (List String)
  amount : Option ℚ
deriving Repr, DecidableEq

/-- One entry of the grouped-series JSON array. `groups` models the
`Groups` field; `none` models an absent field (read via `e.get("Groups", [])`). -/
structure TypeEntry where
  start : Option String
  groups : Option (List GroupEntry)
deriving Repr, DecidableEq

/-- Looking up a JSON field: present gives the value, absent raises `KeyError`. -/
def getField {α : Type} (o : Option α) (msg : String) : Except String α :=
  match o with
  | some a => Except.ok a
  | none => Except.error msg

/-- Ordering of daily rows by the `Date` column. -/
def dateLE (a b : CostPoint) : Prop := a.date ≤ b.date

/-- Ordering of per-type rows by the `Date` column. -/
def dateLET (a b : TypeRow) : Prop := a.date ≤ b.date

/-- Descending order on (label, total) bars by the `Cost` value. -/
def costGE (a b : String × ℚ) : Prop := b.2 ≤ a.2

instance : DecidableRel dateLE := fun a b => inferInstanceAs (Decidable (a.date ≤ b.date))

instance : DecidableRel dateLET := fun a b => inferInstanceAs (Decidable (a.date ≤ b.date))

instance : DecidableRel costGE := fun a b => inferInstanceAs (Decidable (b.2 ≤ a.2))

instance : IsTotal CostPoint dateLE := ⟨fun a b => le_total a.date b.date⟩

instance : IsTrans CostPoint dateLE := ⟨fun _ _ _ h h2 => le_trans h h2⟩

instance : IsTotal TypeRow dateLET := ⟨fun a b => le_total a.date b.date⟩

instance : IsTrans TypeRow dateLET := ⟨fun _ _ _ h h2 => le_trans h h2⟩

instance : IsTotal (String × ℚ) costGE := ⟨fun a b => le_total b.2 a.2⟩

instance : IsTrans (String × ℚ) costGE := ⟨fun _ _ _ h h2 => le_trans h2 h⟩

/-- Model of `df.sort_values("Date")` for the daily table. -/
def sortByDate (l : List CostPoint) : List CostPoint := l.insertionSort dateLE

/-- Model of `df.sort_values("Date")` for the per-type table. -/
def sortByDateT (l : List TypeRow) : List TypeRow := l.insertionSort dateLET

/-- Model of `totals.sort_values("Cost", ascending=False)` on the bar-chart totals. -/
def sortByCostDesc (l : List (String × ℚ)) : List (String × ℚ) := l.insertionSort costGE

/-- Ascending sort of group keys (pandas `groupby` emits groups with keys
sorted ascending). -/
def sortKeys (l : List String) : List String := l.insertionSort (· ≤ ·)

/-- Sum of the `Cost` column of a per-type table. -/
def sumCosts (l : List TypeRow) : ℚ := (l.map (·.cost)).sum

/-- Sum of the `Cost` column of a daily table. -/
def sumCostsP (l : List CostPoint) : ℚ := (l.map (·.cost)).sum

/-- The record built for one total-series entry (body of the loop in
`df_daily_total`, lines 33–39): both fields are required, a missing one
raises `KeyError`. -/
def totalRecord (e : TotalEntry) : Except String CostPoint := do
  let d ← getField e.start "KeyError: Start"
  let a ← getField e.amount "KeyError: Amount"
  pure ⟨d, a⟩

/-- Model of `df_daily_total` (lines 31–42): one record per entry, then
`pd.DataFrame(rec)`, `pd.to_datetime`, `sort_values("Date")`. When `rec` is
empty, `pd.DataFrame([])` has no columns and `df["Date"]` raises `KeyError`. -/
def df_daily_total (results : List TotalEntry) : Except String (List CostPoint) := do
  let recs ← results.mapM totalRecord
  if recs.isEmpty then Except.error "KeyError: Date"
  else pure (sortByDate recs)

/-- The records built for one grouped-series entry (lines 47–52):
`date = e["TimePeriod"]["Start"]` is required; groups come from
`e.get("Groups", [])`; the type label is `g["Keys"][0]` when `g.get("Keys")`
is truthy (a non-empty list) and `"UNKNOWN"` otherwise; the amount is
required. -/
def entryRows (e : TypeEntry) : Except String (List TypeRow) := do
  let d ← getField e.start "KeyError: Start"
  (e.groups.getD []).mapM (fun g => do
    let itype := match g.keys with
      | some (k :: _) => k
      | _ => "UNKNOWN"
    let c ← getField g.amount "KeyError: Amount"
    pure (⟨d, itype, c⟩ : TypeRow))

/-- The flat record list accumulated by the loop of `df_by_type`. -/
def allRows (results : List TypeEntry) : Except String (List TypeRow) :=
  Except.map List.flatten (results.mapM entryRows)

/-- Model of `df_by_type` (lines 45–55): flatten the per-entry records, then
`pd.DataFrame(rec)`, `pd.to_datetime`, `sort_values("Date")`; an empty record
list gives a column-free DataFrame and `df["Date"]` raises `KeyError`. -/
def df_by_type (results : List TypeEntry) : Except String (List TypeRow) := do
  let recs ← allRows results
  if recs.isEmpty then Except.error "KeyError: Date"
  else pure (sortByDateT recs)

/-- Model of `derive_daily_from_type` (lines 58–61): group the per-type table by
`Date` (pandas emits one group per distinct date, keys ascending), sum `Cost`
within each group, then `sort_values("Date")`. -/
def derive_daily_from_type (df_type : List TypeRow) : List CostPoint :=
  let ks := sortKeys (df_type.map (·.date)).dedup
  let grouped := ks.map (fun d =>
    (⟨d, sumCosts (df_type.filter (fun r => r.date == d))⟩ : CostPoint))
  sortByDate grouped

/-- The summary dictionary returned by `analyze`. -/
structure Summary where
  total_cost : ℚ
  average_cost : ℚ
  max_cost : ℚ
  max_cost_date : Option String
  min_cost : ℚ
  min_cost_date : Option String
deriving Repr, DecidableEq

/-- Model of `analyze` (lines 64–87): on an empty table return the all-zero summary;
otherwise total = `sum`, average = `mean`, max/min = extremal costs, and
`idxmax` / `idxmin` give the first row attaining the extremum, whose `Date`
is reported. -/
def analyze (df_daily : List CostPoint) : Summary :=
  match df_daily with
  | [] =>
    { total_cost := 0, average_cost := 0, max_cost := 0, max_cost_date := none,
      min_cost := 0, min_cost_date := none }
  | p :: ps =>
    let total := ((p :: ps).map (·.cost)).sum
    let avg := total / ((p :: ps).length : ℚ)
    let mx := ps.foldl (fun a q => max a q.cost) p.cost
    let mn := ps.foldl (fun a q => min a q.cost) p.cost
    let mxd := ((p :: ps).find? (fun q => q.cost == mx)).map (·.date)
    let mnd := ((p :: ps).find? (fun q => q.cost == mn)).map (·.date)
    { total_cost := total, average_cost := avg, max_cost := mx, max_cost_date := mxd,
      min_cost := mn, min_cost_date := mnd }

/-- The bar data computed by `plot_by_type` (line 106): group the per-type
table by `InstanceType` (one group per distinct type, keys ascending), sum
`Cost` per group, then `sort_values("Cost", ascending=False)`. -/
def plot_by_type_totals (df_type : List TypeRow) : List (String × ℚ) :=
  let ks := sortKeys (df_type.map (·.instanceType)).dedup
  let totals := ks.map (fun t =>
    (t, sumCosts (df_type.filter (fun r => r.instanceType == t))))
  sortByCostDesc totals

/-- The data content of one pipeline run: the summary written into the HTML
table, the series plotted by `plot_daily`, and the bars of `plot_by_type`. -/
structure ReportData where
  summary : Summary
  lineSeries : List CostPoint
  barSeries : List (String × ℚ)
deriving Repr, DecidableEq

/-- The data flow of `main` (lines 178–190): normalize the required grouped
series; use `df_daily_total` when the total-series file is present
(`dailyResults = some rs`), otherwise derive the daily table from the
grouped one; then analyze and plot. -/
def mainPipeline (typeResults : List TypeEntry)
    (dailyResults : Option (List TotalEntry)) : Except String ReportData := do
  let df_type ← df_by_type typeResults
  let df_daily ← match dailyResults with
    | some rs => df_daily_total rs
    | none => pure (derive_daily_from_type df_type)
  pure { summary := analyze df_daily, lineSeries := df_daily,
         barSeries := plot_by_type_totals df_type }

/-- A total-series entry with both required fields present. -/
def wellFormedTotal (e : TotalEntry) : Prop := e.start.isSome ∧ e.amount.isSome

instance (e : TotalEntry) : Decidable (wellFormedTotal e) :=
  inferInstanceAs (Decidable (_ ∧ _))

/-- The `CostPoint` a well-formed total-series entry normalizes to. -/
def normTotal (e : TotalEntry) : CostPoint := ⟨e.start.getD "", e.amount.getD 0⟩

/-! ### Basic reduction lemmas for the `Except` monad -/

theorem except_bind_ok {α β : Type} (a : α) (k : α → Except String β) :
    (Except.ok a >>= k) = k a := rfl

theorem except_bind_err {α β : Type} (m : String) (k : α → Except String β) :
    (Except.error m >>= k : Except String β) = Except.error m := rfl

theorem except_map_ok {α β : Type} (f : α → β) (a : α) :
    Except.map f (Except.ok a : Except String α) = Except.ok (f a) := rfl

theorem except_map_err {α β : Type} (f : α → β) (m : String) :
    Except.map f (Except.error m : Except String α) = Except.error m := rfl

/-- C6: the function `analyze` applied to an empty `CostPoint` sequence returns the defined
edge-case summary: all numeric fields zero and both date fields `none`. -/
theorem analyze_empty :
    analyze [] =
      { total_cost := 0, average_cost := 0, max_cost := 0, max_cost_date := none,
        min_cost := 0, min_cost_date := none } := rfl

/-- C2: on a grouped-series file containing an empty JSON array, the pipeline
does not produce the all-zero summary: `df_by_type` raises `KeyError`
(`pd.DataFrame([])` has no `Date` column), so `main` crashes before any
report is written. -/
theorem pipeline_crashes_on_empty_grouped :
    df_by_type [] = Except.error "KeyError: Date" ∧
    mainPipeline [] none = Except.error "KeyError: Date" := ⟨rfl, rfl⟩

/-- C1: on every non-empty daily table, `analyze` reports `total_cost` equal
to the sum of the costs and `average_cost` equal to `total_cost` divided by
the number of rows. -/
theorem analyze_total_and_average (l : List CostPoint) (h : l ≠ []) :
    (analyze l).total_cost = (l.map (·.cost)).sum ∧
    (analyze l).average_cost = (analyze l).total_cost / (l.length : ℚ) := by
  cases l with
  | nil => exact absurd rfl h
  | cons p ps => exact ⟨rfl, rfl⟩

/-- Witness for C1 at a concrete two-day table. -/
theorem analyze_total_and_average_witness :
    ([⟨"2024-01-01", 2⟩, ⟨"2024-01-02", 3⟩] : List CostPoint) ≠ [] ∧
    (analyze [⟨"2024-01-01", 2⟩, ⟨"2024-01-02", 3⟩]).total_cost =
      (([⟨"2024-01-01", 2⟩, ⟨"2024-01-02", 3⟩] : List CostPoint).map (·.cost)).sum ∧
    (analyze [⟨"2024-01-01", 2⟩, ⟨"2024-01-02", 3⟩]).average_cost =
      (analyze [⟨"2024-01-01", 2⟩, ⟨"2024-01-02", 3⟩]).total_cost /
        (([⟨"2024-01-01", 2⟩, ⟨"2024-01-02", 3⟩] : List CostPoint).length : ℚ) := by
  refine ⟨by decide, ?_⟩
  exact analyze_total_and_average [⟨"2024-01-01", 2⟩, ⟨"2024-01-02", 3⟩] (by decide)

/-- Counterexample for C4 as stated: on the empty total-series array
(`N = 0`) the code does not produce `0` rows; it raises `KeyError` because
`pd.DataFrame([])` has no `Date` column. -/
theorem df_daily_total_nil_errors :
    df_daily_total [] = Except.error "KeyError: Date" := rfl

/-- Counterexample for C10 as stated: when the only entry has a period start
but no `Groups` field, `df_by_type` does raise an error (the empty-table
`KeyError`), so "raises no error" fails in general. -/
theorem df_by_type_groupless_only_errors :
    df_by_type [⟨some "2024-01-01", none⟩] = Except.error "KeyError: Date" := rfl

/-! ### Group-by-and-sum: fiberwise decomposition lemmas -/

/-- Splitting a sum along a Boolean predicate on the rows. -/
theorem sum_map_filter_split {α : Type} (p : α → Bool) (val : α → ℚ) (rows : List α) :
    ((rows.filter p).map val).sum + ((rows.filter (fun r => !(p r))).map val).sum
      = (rows.map val).sum := by
  induction rows with
  | nil => simp
  | cons r rows ih =>
    by_cases hr : p r
    · simp [List.filter_cons, hr]
      linarith [ih]
    · simp [List.filter_cons, hr]
      linarith [ih]

/-- Rows with key `k'` are unaffected by first discarding the rows with a
different key `k`. -/
theorem filter_key_of_ne {α : Type} (key : α → String) {k k' : String} (h : k' ≠ k)
    (rows : List α) :
    (rows.filter (fun r => !(key r == k))).filter (fun r => key r == k')
      = rows.filter (fun r => key r == k') := by
  rw [List.filter_filter]
  apply List.filter_congr
  intro x _
  by_cases hx : key x = k'
  · simp [hx, h]
  · simp [hx]

/-- Summing the per-key group sums over a duplicate-free list of keys that
covers every row gives the total sum over the rows. -/
theorem sum_fiberwise {α : Type} (key : α → String) (val : α → ℚ) :
    ∀ (ks : List String) (rows : List α), ks.Nodup → (∀ r ∈ rows, key r ∈ ks) →
      (ks.map (fun k => ((rows.filter (fun r => key r == k)).map val).sum)).sum
        = (rows.map val).sum := by
  intro ks
  induction ks with
  | nil =>
    intro rows _ hcov
    cases rows with
    | nil => simp
    | cons r rs => exact absurd (hcov r (List.mem_cons_self r rs)) (List.not_mem_nil _)
  | cons k kt ih =>
    intro rows hnd hcov
    obtain ⟨hk, hnd2⟩ := List.nodup_cons.mp hnd
    have hrest : ∀ k2 ∈ kt,
        ((rows.filter (fun r => key r == k2)).map val).sum
          = (((rows.filter (fun r => !(key r == k))).filter
              (fun r => key r == k2)).map val).sum := by
      intro k2 hk2
      have hne : k2 ≠ k := fun he => hk (he ▸ hk2)
      rw [filter_key_of_ne key hne rows]
    have hcov2 : ∀ r ∈ rows.filter (fun r => !(key r == k)), key r ∈ kt := by
      intro r hr
      rw [List.mem_filter] at hr
      rcases List.mem_cons.mp (hcov r hr.1) with h1 | h1
      · exfalso
        have := hr.2
        simp [h1] at this
      · exact h1
    rw [List.map_cons, List.sum_cons, List.map_congr_left hrest,
      ih (rows.filter (fun r => !(key r == k))) hnd2 hcov2]
    exact sum_map_filter_split (fun r => key r == k) val rows

/-- Sorting the daily table does not change the sum of its costs. -/
theorem sumCostsP_sortByDate (l : List CostPoint) :
    sumCostsP (sortByDate l) = sumCostsP l := by
  unfold sumCostsP sortByDate
  exact List.Perm.sum_eq (List.Perm.map _ (List.perm_insertionSort dateLE l))

/-- Sorting the keys does not change a sum indexed by them. -/
theorem sum_map_sortKeys (f : String → ℚ) (l : List String) :
    ((sortKeys l).map f).sum = (l.map f).sum := by
  unfold sortKeys
  exact List.Perm.sum_eq (List.Perm.map f (List.perm_insertionSort _ l))

/-- C3: `derive_daily_from_type` preserves the grand total: the costs of its
output (one row per distinct date) sum to the costs of its input. -/
theorem derive_daily_preserves_total (rows : List TypeRow) (_h : rows ≠ []) :
    sumCostsP (derive_daily_from_type rows) = sumCosts rows := by
  unfold derive_daily_from_type
  rw [sumCostsP_sortByDate]
  unfold sumCostsP
  rw [List.map_map]
  have hcomp : ((fun c => c.cost) : CostPoint → ℚ) ∘
      (fun d => (⟨d, sumCosts (rows.filter (fun r => r.date == d))⟩ : CostPoint))
      = fun d => sumCosts (rows.filter (fun r => r.date == d)) := rfl
  rw [hcomp, sum_map_sortKeys]
  unfold sumCosts
  exact sum_fiberwise (·.date) (·.cost) (rows.map (·.date)).dedup rows
    (List.nodup_dedup _) (fun r hr => List.mem_dedup.mpr (List.mem_map.mpr ⟨r, hr, rfl⟩))

/-- Witness for C3 at a concrete two-type table. -/
theorem derive_daily_preserves_total_witness :
    ([⟨"2024-01-01", "t2.micro", 1⟩, ⟨"2024-01-01", "m5.large", 2⟩] : List TypeRow) ≠ [] ∧
    sumCostsP (derive_daily_from_type
        [⟨"2024-01-01", "t2.micro", 1⟩, ⟨"2024-01-01", "m5.large", 2⟩]) =
      sumCosts [⟨"2024-01-01", "t2.micro", 1⟩, ⟨"2024-01-01", "m5.large", 2⟩] :=
  ⟨by decide, derive_daily_preserves_total _ (by decide)⟩

/-- C7: the bar data of `plot_by_type` has one bar per distinct
`instance_type`, each bar's value is the total cost of that type summed
across all dates, and the bars are sorted descending by value. -/
theorem plot_by_type_bar_spec (rows : List TypeRow) :
    ((plot_by_type_totals rows).map Prod.fst).Perm ((rows.map (·.instanceType)).dedup) ∧
    (∀ p ∈ plot_by_type_totals rows,
        p.2 = sumCosts (rows.filter (fun r => r.instanceType == p.1))) ∧
    List.Sorted costGE (plot_by_type_totals rows) := by
  unfold plot_by_type_totals sortByCostDesc
  refine ⟨?_, ?_, ?_⟩
  · refine List.Perm.trans (List.Perm.map Prod.fst (List.perm_insertionSort costGE _)) ?_
    rw [List.map_map]
    have hcomp : (Prod.fst ∘ fun t =>
        (t, sumCosts (rows.filter (fun r => r.instanceType == t)))) = id := rfl
    rw [hcomp, List.map_id]
    unfold sortKeys
    exact List.perm_insertionSort _ _
  · intro p hp
    have hp2 : p ∈ (sortKeys ((rows.map (·.instanceType)).dedup)).map
        (fun t => (t, sumCosts (rows.filter (fun r => r.instanceType == t)))) :=
      (List.perm_insertionSort costGE _).mem_iff.mp hp
    obtain ⟨t, _ht, rfl⟩ := List.mem_map.mp hp2
    rfl
  · exact List.sorted_insertionSort costGE _

/-- Witness for C7 at a concrete one-row table. -/
theorem plot_by_type_bar_spec_witness :
    ((plot_by_type_totals [⟨"2024-01-01", "t2.micro", 1⟩]).map Prod.fst).Perm
      (([⟨"2024-01-01", "t2.micro", 1⟩] : List TypeRow).map (·.instanceType)).dedup ∧
    ("t2.micro", sumCosts ([⟨"2024-01-01", "t2.micro", 1⟩].filter
        (fun r => r.instanceType == "t2.micro")))
      ∈ plot_by_type_totals [⟨"2024-01-01", "t2.micro", 1⟩] ∧
    ("t2.micro", sumCosts ([⟨"2024-01-01", "t2.micro", 1⟩].filter
        (fun r => r.instanceType == "t2.micro"))).2
      = sumCosts ([⟨"2024-01-01", "t2.micro", 1⟩].filter
        (fun r => r.instanceType ==
          ("t2.micro", sumCosts ([⟨"2024-01-01", "t2.micro", 1⟩].filter
            (fun r => r.instanceType == "t2.micro"))).1)) ∧
    List.Sorted costGE (plot_by_type_totals [⟨"2024-01-01", "t2.micro", 1⟩]) := by
  have hmem : ("t2.micro", sumCosts ([⟨"2024-01-01", "t2.micro", 1⟩].filter
      (fun r => r.instanceType == "t2.micro")))
      ∈ plot_by_type_totals [⟨"2024-01-01", "t2.micro", 1⟩] :=
    List.mem_cons_self _ _
  exact ⟨(plot_by_type_bar_spec _).1, hmem,
    (plot_by_type_bar_spec [⟨"2024-01-01", "t2.micro", 1⟩]).2.1 _ hmem,
    (plot_by_type_bar_spec _).2.2⟩

/-! ### Normalization round-trip (C4) -/

/-- On well-formed entries the record loop of `df_daily_total` succeeds and
produces exactly the pointwise-normalized records, in input order. -/
theorem mapM_totalRecord_ok (rs : List TotalEntry)
    (h : ∀ e ∈ rs, wellFormedTotal e) :
    rs.mapM totalRecord = Except.ok (rs.map normTotal) := by
  induction rs with
  | nil => rfl
  | cons e es ih =>
    obtain ⟨hs, ha⟩ := h e (List.mem_cons_self e es)
    obtain ⟨d, hd⟩ := Option.isSome_iff_exists.mp hs
    obtain ⟨a, haa⟩ := Option.isSome_iff_exists.mp ha
    rw [List.mapM_cons, ih (fun x hx => h x (List.mem_cons_of_mem e hx))]
    simp only [totalRecord, getField, hd, haa, normTotal, List.map_cons]
    rfl

/-- C4 (amended to non-empty arrays): on `N ≥ 1` well-formed total-series
entries, `df_daily_total` succeeds with exactly `N` rows, sorted ascending by
date, and the rows are a permutation of the normalized entries (none dropped,
none duplicated). -/
theorem df_daily_total_roundtrip (rs : List TotalEntry)
    (hwf : ∀ e ∈ rs, wellFormedTotal e) (hne : rs ≠ []) :
    ∃ out, df_daily_total rs = Except.ok out ∧ out.length = rs.length ∧
      List.Sorted dateLE out ∧ out.Perm (rs.map normTotal) := by
  refine ⟨sortByDate (rs.map normTotal), ?_, ?_, ?_, ?_⟩
  · rw [df_daily_total, mapM_totalRecord_ok rs hwf, except_bind_ok]
    have hne2 : (rs.map normTotal).isEmpty = false := by
      cases rs with
      | nil => exact absurd rfl hne
      | cons e es => rfl
    rw [hne2]
    rfl
  · simp [sortByDate, List.length_insertionSort]
  · exact List.sorted_insertionSort dateLE _
  · exact List.perm_insertionSort dateLE _

/-- Witness for C4 at a concrete two-entry array. -/
theorem df_daily_total_roundtrip_witness :
    (∀ e ∈ ([⟨some "2024-01-02", some 2⟩, ⟨some "2024-01-01", some 1⟩] :
        List TotalEntry), wellFormedTotal e) ∧
    ([⟨some "2024-01-02", some 2⟩, ⟨some "2024-01-01", some 1⟩] :
        List TotalEntry) ≠ [] ∧
    ∃ out, df_daily_total [⟨some "2024-01-02", some 2⟩, ⟨some "2024-01-01", some 1⟩]
        = Except.ok out ∧
      out.length = ([⟨some "2024-01-02", some 2⟩, ⟨some "2024-01-01", some 1⟩] :
        List TotalEntry).length ∧
      List.Sorted dateLE out ∧
      out.Perm (([⟨some "2024-01-02", some 2⟩, ⟨some "2024-01-01", some 1⟩] :
        List TotalEntry).map normTotal) := by
  refine ⟨by decide, by decide, ?_⟩
  exact df_daily_total_roundtrip _ (by decide) (by decide)

/-! ### Surfacing of missing required fields (C5) -/

/-- If one element makes the body fail, the whole `mapM` loop fails. -/
theorem mapM_error_of_mem {α β : Type} (f : α → Except String β) :
    ∀ (l : List α) (a : α), a ∈ l → (∃ m, f a = Except.error m) →
      ∃ m, l.mapM f = Except.error m := by
  intro l
  induction l with
  | nil => exact fun a ha _ => absurd ha (List.not_mem_nil a)
  | cons x xs ih =>
    intro a ha hf
    rcases List.mem_cons.mp ha with rfl | hmem
    · obtain ⟨m, hm⟩ := hf
      exact ⟨m, by rw [List.mapM_cons, hm, except_bind_err]⟩
    · cases hx : f x with
      | error m => exact ⟨m, by rw [List.mapM_cons, hx, except_bind_err]⟩
      | ok v =>
        obtain ⟨m, hm⟩ := ih a hmem hf
        refine ⟨m, ?_⟩
        rw [List.mapM_cons, hx, except_bind_ok, hm, except_bind_err]

/-- A total-series entry missing a required field makes its record fail. -/
theorem totalRecord_error (e : TotalEntry) (h : e.start = none ∨ e.amount = none) :
    ∃ m, totalRecord e = Except.error m := by
  rcases h with h1 | h1
  · exact ⟨"KeyError: Start", by rw [totalRecord, h1]; rfl⟩
  · cases hs : e.start with
    | none => exact ⟨"KeyError: Start", by rw [totalRecord, hs]; rfl⟩
    | some d => exact ⟨"KeyError: Amount", by rw [totalRecord, hs, h1]; rfl⟩

/-- A grouped-series entry missing its period start, or containing a group
missing its amount, makes its record batch fail. -/
theorem entryRows_error (e : TypeEntry)
    (h : e.start = none ∨ ∃ gs, e.groups = some gs ∧ ∃ g ∈ gs, g.amount = none) :
    ∃ m, entryRows e = Except.error m := by
  cases hs : e.start with
  | none => exact ⟨"KeyError: Start", by rw [entryRows, hs]; rfl⟩
  | some d =>
    rcases h with h1 | ⟨gs, hgs, g, hg, hga⟩
    · rw [hs] at h1
      cases h1
    · have hgerr : ∀ gg : GroupEntry, gg.amount = none →
          (do
            let itype := match gg.keys with
              | some (k :: _) => k
              | _ => "UNKNOWN"
            let c ← getField gg.amount "KeyError: Amount"
            pure (⟨d, itype, c⟩ : TypeRow) : Except String TypeRow)
            = Except.error "KeyError: Amount" := by
        intro gg hgg
        rw [hgg]
        rfl
      obtain ⟨m, hm⟩ := mapM_error_of_mem
        (fun gg : GroupEntry => do
          let itype := match gg.keys with
            | some (k :: _) => k
            | _ => "UNKNOWN"
          let c ← getField gg.amount "KeyError: Amount"
          pure (⟨d, itype, c⟩ : TypeRow))
        gs g hg ⟨"KeyError: Amount", hgerr g hga⟩
      refine ⟨m, ?_⟩
      rw [entryRows, hs, hgs]
      simpa [getField, except_bind_ok, Option.getD] using hm

/-- An error from the record loop propagates through `df_by_type`. -/
theorem df_by_type_error_of_mem (ts : List TypeEntry) (e : TypeEntry) (he : e ∈ ts)
    (herr : ∃ m, entryRows e = Except.error m) :
    ∃ m, df_by_type ts = Except.error m := by
  obtain ⟨m, hm⟩ := mapM_error_of_mem entryRows ts e he herr
  refine ⟨m, ?_⟩
  rw [df_by_type, allRows, hm]
  rfl

/-- C5: a missing required field (period start or cost amount) in any entry
makes the corresponding normalizer fail with an error surfaced to the caller;
the entry is not skipped or defaulted. -/
theorem normalization_surfaces_missing_fields (rs : List TotalEntry) (ts : List TypeEntry)
    (h1 : ∃ e ∈ rs, e.start = none ∨ e.amount = none)
    (h2 : ∃ e ∈ ts, e.start = none ∨ ∃ gs, e.groups = some gs ∧ ∃ g ∈ gs, g.amount = none) :
    (∃ msg, df_daily_total rs = Except.error msg) ∧
    (∃ msg, df_by_type ts = Except.error msg) := by
  constructor
  · obtain ⟨e, he, hbad⟩ := h1
    obtain ⟨m, hm⟩ := mapM_error_of_mem totalRecord rs e he (totalRecord_error e hbad)
    exact ⟨m, by rw [df_daily_total, hm]; rfl⟩
  · obtain ⟨e, he, hbad⟩ := h2
    exact df_by_type_error_of_mem ts e he (entryRows_error e hbad)

/-- Witness for C5: a total-series entry with no period start and a
grouped-series entry whose single group has no amount. -/
theorem normalization_surfaces_missing_fields_witness :
    (∃ msg, df_daily_total [⟨none, some 1⟩] = Except.error msg) ∧
    (∃ msg, df_by_type [⟨some "2024-01-01", some [⟨some ["t2.micro"], none⟩]⟩]
      = Except.error msg) := by
  refine normalization_surfaces_missing_fields _ _ ?_ ?_
  · exact ⟨⟨none, some 1⟩, List.mem_cons_self _ _, Or.inl rfl⟩
  · exact ⟨⟨some "2024-01-01", some [⟨some ["t2.micro"], none⟩]⟩,
      List.mem_cons_self _ _,
      Or.inr ⟨[⟨some ["t2.micro"], none⟩], rfl,
        ⟨some ["t2.micro"], none⟩, List.mem_cons_self _ _, rfl⟩⟩

/-! ### Source selection in `main` (C8) -/

/-- C8: when the total-series file is present, its normalized values are used
verbatim for the summary and the line chart, whatever the grouped series
contains; the derive-from-type fallback is taken exactly when the file is
absent. -/
theorem mainPipeline_total_verbatim (t : List TypeEntry) (rs : List TotalEntry)
    (dt : List TypeRow) (d : List CostPoint)
    (ht : df_by_type t = Except.ok dt) (hd : df_daily_total rs = Except.ok d) :
    mainPipeline t (some rs) = Except.ok ⟨analyze d, d, plot_by_type_totals dt⟩ ∧
    mainPipeline t none = Except.ok ⟨analyze (derive_daily_from_type dt),
      derive_daily_from_type dt, plot_by_type_totals dt⟩ := by
  constructor
  · rw [mainPipeline, ht, except_bind_ok]
    show df_daily_total rs >>= _ = _
    rw [hd, except_bind_ok]
    rfl
  · rw [mainPipeline, ht, except_bind_ok]
    show pure (derive_daily_from_type dt) >>= _ = _
    rfl

/-- Witness for C8 at concrete one-entry inputs. -/
theorem mainPipeline_total_verbatim_witness :
    mainPipeline [⟨some "2024-01-01", some [⟨some ["t2.micro"], some 1⟩]⟩]
        (some [⟨some "2024-01-02", some 2⟩]) =
      Except.ok ⟨analyze [⟨"2024-01-02", 2⟩], [⟨"2024-01-02", 2⟩],
        plot_by_type_totals [⟨"2024-01-01", "t2.micro", 1⟩]⟩ ∧
    mainPipeline [⟨some "2024-01-01", some [⟨some ["t2.micro"], some 1⟩]⟩] none =
      Except.ok ⟨analyze (derive_daily_from_type [⟨"2024-01-01", "t2.micro", 1⟩]),
        derive_daily_from_type [⟨"2024-01-01", "t2.micro", 1⟩],
        plot_by_type_totals [⟨"2024-01-01", "t2.micro", 1⟩]⟩ :=
  mainPipeline_total_verbatim _ _ [⟨"2024-01-01", "t2.micro", 1⟩] [⟨"2024-01-02", 2⟩]
    rfl rfl

/-! ### Silent dropping of `Groups`-less entries (C10) -/

/-- An entry with a period start but no `Groups` field yields no records and
no error. -/
theorem entryRows_groupless (e : TypeEntry) (d : String) (hd : e.start = some d)
    (hg : e.groups = none) : entryRows e = Except.ok [] := by
  rw [entryRows, hd, hg]
  rfl

/-- Unfolding one step of the record loop of `df_by_type`. -/
theorem allRows_cons (x : TypeEntry) (l : List TypeEntry) :
    allRows (x :: l) =
      (do
        let vx ← entryRows x
        let fl ← allRows l
        pure (vx ++ fl)) := by
  rw [allRows, allRows, List.mapM_cons]
  cases hx : entryRows x with
  | error m => rfl
  | ok v =>
    cases hl : l.mapM entryRows with
    | error m => rfl
    | ok vs => rfl

/-- Removing a start-only, `Groups`-less entry does not change the record
loop's outcome at all. -/
theorem allRows_drop_groupless (e : TypeEntry) (d : String) (hd : e.start = some d)
    (hg : e.groups = none) :
    ∀ xs ys : List TypeEntry, allRows (xs ++ e :: ys) = allRows (xs ++ ys) := by
  intro xs
  induction xs with
  | nil =>
    intro ys
    rw [List.nil_append, List.nil_append, allRows_cons, entryRows_groupless e d hd hg,
      except_bind_ok]
    cases hy : allRows ys with
    | error m => rfl
    | ok v => rfl
  | cons x xt ih =>
    intro ys
    rw [List.cons_append, List.cons_append, allRows_cons, allRows_cons, ih ys]

/-- C10 (amended): an entry with a period start but no `Groups` field is
silently dropped: `df_by_type` behaves exactly as if the entry were absent.
(In particular, if no entry yields a record the empty-table `KeyError` still
occurs, so "raises no error" holds only on the entry's account.) -/
theorem df_by_type_drops_groupless (xs ys : List TypeEntry) (e : TypeEntry) (d : String)
    (hd : e.start = some d) (hg : e.groups = none) :
    df_by_type (xs ++ e :: ys) = df_by_type (xs ++ ys) := by
  rw [df_by_type, df_by_type, allRows_drop_groupless e d hd hg xs ys]

/-- Witness for C10: dropping a `Groups`-less entry after one normal entry. -/
theorem df_by_type_drops_groupless_witness :
    df_by_type ([⟨some "2024-01-01", some [⟨some ["t2.micro"], some 1⟩]⟩] ++
      (⟨some "2024-01-02", none⟩ : TypeEntry) :: []) =
    df_by_type ([⟨some "2024-01-01", some [⟨some ["t2.micro"], some 1⟩]⟩] ++ []) :=
  df_by_type_drops_groupless _ _ _ "2024-01-02" rfl rfl
